import Mathlib

/-!
Shallow embedding of the script at examples/find-jobs-by-skill.py from the
career-crawler repository, together with theorems settling the claims of the
specification against it.

Modelling conventions:
* Each Python print call contributes one element to a list of output strings;
  a literal newline at the start of a printed string is kept verbatim.
* An HTTP interaction is represented by an explicit outcome value
  (HttpOutcome, CatalogOutcome) passed to the function that performs it:
  the outcome says whether the transport raised and, on success, what JSON
  body was received.
* A JSON object is a structure of Option fields; a missing field is none.
  Python dictionary access on a possibly-missing key is dictGet, which
  models a KeyError by Except.error when the field is absent.
* An uncaught Python exception is Except.error carrying the error text;
  normal completion is Except.ok carrying the printed lines.
-/

/-- Constant API_BASE of the script (source line 10). -/
def API_BASE : String := "http://localhost:3000/api"

/-- Model of the Python string method join: sep.join(parts). -/
def pyJoin (sep : String) : List String → String
  | [] => ""
  | [x] => x
  | x :: y :: rest => x ++ sep ++ pyJoin sep (y :: rest)

/-- Model of skills_str, the comma join of the skill list (source line 15). -/
def skillsStr (skills : List String) : String := pyJoin "," skills

/-- Model of the request URL built in find_jobs_by_skills (source line 16). -/
def requestUrl (skills : List String) : String :=
  API_BASE ++ "/jobs/skills/" ++ skillsStr skills

/-- Model of the query-parameter mapping params passed to requests.get
(source line 19). -/
def requestParams (limit : Nat) : List (String × Nat) := [("limit", limit)]

/-- Default of the limit parameter in the Python signature
def find_jobs_by_skills(skills, limit=10) (source line 13). -/
def find_jobs_default_limit : Nat := 10

/-- Value of the limit local in main (source line 78). -/
def main_limit : Nat := 20

/-- Request target issued by find_jobs_by_skills: URL and query parameters
(source lines 15-19). -/
def find_jobs_request (skills : List String) (limit : Nat) :
    String × List (String × Nat) :=
  (requestUrl skills, requestParams limit)

/-- Request target issued when the caller leaves limit unspecified, so the
Python default applies. -/
def find_jobs_request_default (skills : List String) :
    String × List (String × Nat) :=
  find_jobs_request skills find_jobs_default_limit

/-- JSON object for one job as the script reads it: every field may be
missing from the body. -/
structure JobJson where
  title : Option String
  company : Option String
  location : Option String
  url : Option String
  skills : Option (List String)
  postedDate : Option String
  source : Option String

/-- JSON body of the search response as the script reads it. -/
structure SearchBody where
  success : Option Bool
  count : Option Int
  jobs : Option (List JobJson)
  error : Option String

/-- Outcome of the HTTP GET in find_jobs_by_skills.  connectionError is a
raised requests ConnectionError; requestException covers every other raised
RequestException (timeout, non-2xx after raise_for_status, malformed HTTP,
JSON decode failure), carrying its message text; ok is a transport-level
success whose parsed body is given. -/
inductive HttpOutcome where
  | connectionError
  | requestException (msg : String)
  | ok (body : SearchBody)

/-- Python dictionary access on an optional field: a missing key raises
KeyError, modelled as Except.error. -/
def dictGet {α : Type} (o : Option α) (key : String) : Except String α :=
  match o with
  | some v => Except.ok v
  | none => Except.error ("KeyError: " ++ key)

/-- Separator of 60 equal signs (source line 26). -/
def sepEq60 : String := String.mk (List.replicate 60 '=')

/-- Separator of 60 dashes (source line 38). -/
def sepDash60 : String := String.mk (List.replicate 60 '-')

/-- Separator of 50 equal signs (source line 81). -/
def sepEq50 : String := String.mk (List.replicate 50 '=')

/-- Header line of a successful search (source line 25). -/
def headerLine (count : Int) (skills : List String) : String :=
  "🎯 Found " ++ toString count ++ " jobs matching skills: " ++ pyJoin ", " skills

/-- Skills line of one job block: first five skills, comma-space joined, an
ellipsis appended only when more than five exist (source lines 33-35). -/
def skillsLine (skills : List String) : String :=
  "🛠️  Skills: " ++ pyJoin ", " (skills.take 5) ++
    (if skills.length > 5 then "..." else "")

/-- Error line printed when the body reports success false (source line 40). -/
def errorLine (e : String) : String := "❌ Error: " ++ e

/-- First line printed on a connection error (source line 43). -/
def couldNotConnectLine : String := "❌ Could not connect to the API server."

/-- Hint line printed on a connection error (source line 44). -/
def serverHintLine : String := "Make sure the server is running: npm start"

/-- Line printed on any other request exception (source line 46). -/
def requestFailedLine (msg : String) : String := "❌ Request failed: " ++ msg

/-- Banner line printed by main before a search (source line 80). -/
def bannerLine : String := "🚀 Job Posting Aggregator - Skills Search"

/-- Lines printed for one job record (source lines 28-38), in print order;
accessing a missing field raises KeyError. -/
def renderJob (job : JobJson) : Except String (List String) := do
  let title ← dictGet job.title "title"
  let company ← dictGet job.company "company"
  let location ← dictGet job.location "location"
  let url ← dictGet job.url "url"
  let skills ← dictGet job.skills "skills"
  let postedDate ← dictGet job.postedDate "postedDate"
  let source ← dictGet job.source "source"
  return ["📋 " ++ title,
          "🏢 Company: " ++ company,
          "📍 Location: " ++ location,
          "🔗 URL: " ++ url,
          skillsLine skills,
          "📅 Posted: " ++ postedDate,
          "🌐 Source: " ++ source,
          sepDash60]

/-- Loop over the jobs array (source line 28): blocks are printed in order;
a raised KeyError aborts the loop. -/
def renderJobs : List JobJson → Except String (List String)
  | [] => Except.ok []
  | j :: rest =>
    match renderJob j with
    | Except.error e => Except.error e
    | Except.ok block =>
      match renderJobs rest with
      | Except.error e => Except.error e
      | Except.ok restLines => Except.ok (block ++ restLines)

/-- Lines printed after a transport-level success, reading the parsed body
(source lines 24-40): the success flag is read first; when truthy the header,
separator and job blocks are printed; when falsy a single error line is. -/
def renderBody (skills : List String) (data : SearchBody) :
    Except String (List String) := do
  let success ← dictGet data.success "success"
  if success then
    let count ← dictGet data.count "count"
    let jobs ← dictGet data.jobs "jobs"
    let body ← renderJobs jobs
    return headerLine count skills :: sepEq60 :: body
  else
    let e ← dictGet data.error "error"
    return [errorLine e]

/-- Model of find_jobs_by_skills (source lines 13-46) as a function of the
HTTP outcome: the two except clauses turn transport failures into printed
messages, while a KeyError raised when reading the body is uncaught. -/
def find_jobs_by_skills (skills : List String) (limit : Nat)
    (outcome : HttpOutcome) : Except String (List String) :=
  let _req := find_jobs_request skills limit
  match outcome with
  | HttpOutcome.connectionError =>
      Except.ok [couldNotConnectLine, serverHintLine]
  | HttpOutcome.requestException msg =>
      Except.ok [requestFailedLine msg]
  | HttpOutcome.ok body => renderBody skills body

/-- JSON body of the skills-catalog response as the script reads it. -/
structure CatalogBody where
  success : Option Bool
  skills : Option (List String)

/-- Outcome of the HTTP GET in get_available_skills.  exn is any raised
exception (connection failure, non-2xx after raise_for_status, malformed
response); ok is a transport-level success with the parsed body. -/
inductive CatalogOutcome where
  | exn
  | ok (body : CatalogBody)

/-- Model of get_available_skills (source lines 49-59).  The bare except
clause returns the empty list on any raised exception, including a KeyError
from a missing success or skills field inside the try block; when the body
parses and its success flag is false the function falls off its end, which in
Python returns None — modelled as none, while a returned list l is some l. -/
def get_available_skills : CatalogOutcome → Option (List String)
  | CatalogOutcome.exn => some []
  | CatalogOutcome.ok body =>
    match body.success with
    | none => some []
    | some true =>
      match body.skills with
      | none => some []
      | some l => some l
    | some false => none

/-- Python truthiness of the value returned by get_available_skills: None and
the empty list are falsy, a non-empty list is truthy. -/
def pyTruthyList : Option (List String) → Bool
  | none => false
  | some l => !l.isEmpty

/-- Usage line of the guidance path (source line 63). -/
def usageLine : String :=
  "Usage: python find-jobs-by-skill.py <skill1> [skill2] [skill3] ..."

/-- Heading printed before the catalog listing (source line 64). -/
def availableLine : String := "\nAvailable skills:"

/-- Line printed when the catalog is empty or unavailable (source line 72). -/
def couldNotFetchLine : String :=
  "  (Could not fetch skills - make sure server is running)"

/-- Example line of the guidance path (source line 73). -/
def exampleLine : String :=
  "\nExample: python find-jobs-by-skill.py JavaScript React Node.js"

/-- Model of the Python format item i:2d for a natural number: right-aligned
in a field of width at least two. -/
def pad2 (i : Nat) : String := if i < 10 then " " ++ toString i else toString i

/-- Numbered catalog entry line (source line 68). -/
def numberedLine (i : Nat) (skill : String) : String :=
  "  " ++ pad2 i ++ ". " ++ skill

/-- Summary line for catalog entries beyond the first twenty
(source line 70). -/
def moreLine (n : Nat) : String :=
  "     ... and " ++ toString (n - 20) ++ " more"

/-- Catalog listing of the guidance path (source lines 67-70): the first
twenty entries numbered from one, then the summary line exactly when more
than twenty entries exist. -/
def catalogListing (skills : List String) : List String :=
  (List.enumFrom 1 (skills.take 20)).map (fun p => numberedLine p.1 p.2) ++
    (if skills.length > 20 then [moreLine skills.length] else [])

/-- Guidance output of main when no skill argument is given
(source lines 63-73), as a function of what get_available_skills returned. -/
def guidanceLines (skillsOpt : Option (List String)) : List String :=
  usageLine :: availableLine ::
    ((if pyTruthyList skillsOpt then catalogListing (skillsOpt.getD [])
      else [couldNotFetchLine]) ++ [exampleLine])

/-- Model of the script function main (source lines 62-82), named pyMain
here because Lean reserves the name main.  args is sys.argv with the program
name dropped, so the zero-skill test len(sys.argv) < 2 is emptiness of args.
The result pairs the process exit status with the printed lines: the
guidance branch calls sys.exit(1); the search branch runs
find_jobs_by_skills with limit 20 and falls off the end of main, exiting
with status 0, unless an uncaught exception propagates. -/
def pyMain (args : List String) (catalog : CatalogOutcome)
    (search : HttpOutcome) : Except String (Nat × List String) :=
  if args.isEmpty then
    Except.ok (1, guidanceLines (get_available_skills catalog))
  else
    match find_jobs_by_skills args main_limit search with
    | Except.ok lines => Except.ok (0, bannerLine :: sepEq50 :: lines)
    | Except.error e => Except.error e

/-- Fully-present job record, matching the JobRecord of the data model: the
shape a well-formed service response provides. -/
structure JobRecord where
  title : String
  company : String
  location : String
  url : String
  skills : List String
  postedDate : String
  source : String

/-- JSON object of a fully-present job record. -/
def JobRecord.toJson (j : JobRecord) : JobJson :=
  ⟨some j.title, some j.company, some j.location, some j.url,
   some j.skills, some j.postedDate, some j.source⟩

/-- Job block printed for a fully-present job record. -/
def renderJobRecord (j : JobRecord) : List String :=
  ["📋 " ++ j.title,
   "🏢 Company: " ++ j.company,
   "📍 Location: " ++ j.location,
   "🔗 URL: " ++ j.url,
   skillsLine j.skills,
   "📅 Posted: " ++ j.postedDate,
   "🌐 Source: " ++ j.source,
   sepDash60]

/-- Number of occurrences of a character in a string. -/
def countChar (c : Char) (s : String) : Nat := s.data.count c

/-- Number of comma delimiters in a string. -/
def commaCount (s : String) : Nat := countChar ',' s

/-- Search outcomes enumerated by the exit-status claim: a connection
failure, any other request exception, a well-formed service rejection, or a
well-formed success. -/
def benignOutcome : HttpOutcome → Prop
  | HttpOutcome.connectionError => True
  | HttpOutcome.requestException _ => True
  | HttpOutcome.ok b =>
      (∃ e, b.success = some false ∧ b.error = some e) ∨
      (∃ c jobs, b.success = some true ∧ b.count = some c ∧
        b.jobs = some (List.map JobRecord.toJson jobs))

/-- Catalog-fetch outcomes the failure claim ranges over: a raised exception,
a body whose success flag is absent or not true, or a body missing the skills
field. -/
def catalogFailure : CatalogOutcome → Prop
  | CatalogOutcome.exn => True
  | CatalogOutcome.ok b => b.success ≠ some true ∨ b.skills = none

theorem countChar_append (c : Char) (a b : String) :
    countChar c (a ++ b) = countChar c a + countChar c b := by
  simp [countChar, String.data_append, List.count_append]

theorem commaCount_pyJoin (l : List String) (h : l ≠ [])
    (h0 : ∀ s ∈ l, commaCount s = 0) :
    commaCount (pyJoin "," l) = l.length - 1 := by
  induction l with
  | nil => exact absurd rfl h
  | cons x rest ih =>
    cases rest with
    | nil => simpa [pyJoin] using h0 x (by simp)
    | cons y rest2 =>
      have hx : commaCount x = 0 := h0 x (by simp)
      have hrest : commaCount (pyJoin "," (y :: rest2)) = (y :: rest2).length - 1 :=
        ih (by simp) (fun s hs => h0 s (by simp [hs, List.mem_cons]))
      have hcomma : commaCount "," = 1 := by decide
      have : commaCount (pyJoin "," (x :: y :: rest2)) =
          commaCount x + commaCount "," + commaCount (pyJoin "," (y :: rest2)) := by
        simp [pyJoin, commaCount, countChar_append]
      rw [this, hx, hcomma, hrest]
      simp
      omega

theorem renderJob_toJson (j : JobRecord) :
    renderJob (JobRecord.toJson j) = Except.ok (renderJobRecord j) := rfl

theorem renderJobs_toJson (jobs : List JobRecord) :
    renderJobs (List.map JobRecord.toJson jobs) =
      Except.ok ((List.map renderJobRecord jobs).flatten) := by
  induction jobs with
  | nil => rfl
  | cons j rest ih => simp [renderJobs, renderJob_toJson, ih]

theorem renderBody_success (skillsReq : List String) (count : Int)
    (jobs : List JobRecord) (err : Option String) :
    renderBody skillsReq
        ⟨some true, some count, some (List.map JobRecord.toJson jobs), err⟩ =
      Except.ok (headerLine count skillsReq :: sepEq60 ::
        (List.map renderJobRecord jobs).flatten) := by
  show (fun a => headerLine count skillsReq :: sepEq60 :: a) <$>
      renderJobs (List.map JobRecord.toJson jobs) = _
  rw [renderJobs_toJson]
  rfl

/-- C1 (amended): for every non-empty skill sequence S and positive limit L,
the request of find_jobs_by_skills has path API_BASE/jobs/skills/ followed by
the comma join of S and a single limit parameter equal to L; and provided no
skill itself contains the comma delimiter, the joined skill segment contains
exactly length S - 1 delimiter characters. -/
theorem C1_query_builder (S : List String) (L : Nat) (hS : S ≠ [])
    (_hL : 0 < L) (hnc : ∀ s ∈ S, commaCount s = 0) :
    find_jobs_request S L =
      (API_BASE ++ "/jobs/skills/" ++ skillsStr S, [("limit", L)]) ∧
    commaCount (skillsStr S) = S.length - 1 :=
  ⟨rfl, commaCount_pyJoin S hS hnc⟩

/-- C1 counterexample: a skill that itself contains a comma defeats the
delimiter count stated by the claim: for S = ["a,b"] the joined segment
contains one comma while length S - 1 = 0. -/
theorem C1_comma_collision :
    skillsStr ["a,b"] = "a,b" ∧
    ¬ commaCount (skillsStr ["a,b"]) = (["a,b"] : List String).length - 1 := by
  decide

/-- Witness for C1 at S = ["Python", "SQL"], L = 5. -/
theorem C1_query_builder_witness :
    find_jobs_request ["Python", "SQL"] 5 =
      (API_BASE ++ "/jobs/skills/" ++ skillsStr ["Python", "SQL"], [("limit", 5)]) ∧
    commaCount (skillsStr ["Python", "SQL"]) =
      (["Python", "SQL"] : List String).length - 1 :=
  C1_query_builder ["Python", "SQL"] 5 (by decide) (by decide) (by decide)

/-- C2 counterexample: when the caller leaves limit unspecified the request
carries limit 10, not 20. -/
theorem C2_default_limit_cex :
    (find_jobs_request_default ["Python"]).2 = [("limit", 10)] ∧
    (find_jobs_request_default ["Python"]).2 ≠ [("limit", 20)] := by
  decide

/-- C2 (amended): when the caller of find_jobs_by_skills does not specify a
limit, the limit used in the request equals the signature default 10; the
constant 20 is what the driver main passes explicitly. -/
theorem C2_default_limit (skills : List String) :
    (find_jobs_request_default skills).2 = [("limit", find_jobs_default_limit)] ∧
    find_jobs_default_limit = 10 ∧ main_limit = 20 :=
  ⟨rfl, rfl, rfl⟩

/-- C3: the skills line of a rendered job block shows all skills and appends
nothing when the record has at most five skills, and shows exactly the first
five in original order followed by the ellipsis marker when it has more. -/
theorem C3_skills_truncation (j : JobRecord) :
    (renderJobRecord j)[4]? = some (skillsLine j.skills) ∧
    (j.skills.length ≤ 5 →
      skillsLine j.skills = "🛠️  Skills: " ++ pyJoin ", " j.skills) ∧
    (5 < j.skills.length →
      skillsLine j.skills =
        "🛠️  Skills: " ++ pyJoin ", " (j.skills.take 5) ++ "...") := by
  refine ⟨rfl, fun h => ?_, fun h => ?_⟩
  · simp [skillsLine, List.take_of_length_le h, Nat.not_lt.mpr h]
  · simp [skillsLine, h]

/-- Witness for C3 at a record with six skills. -/
theorem C3_skills_truncation_witness :
    skillsLine ["a", "b", "c", "d", "e", "f"] =
      "🛠️  Skills: " ++
        pyJoin ", " ((["a", "b", "c", "d", "e", "f"] : List String).take 5) ++
        "..." :=
  (C3_skills_truncation
    ⟨"t", "c", "l", "u", ["a", "b", "c", "d", "e", "f"], "p", "s"⟩).2.2
    (by decide)

/-- C4: a body whose success flag is false renders as exactly one error line
carrying the error message — no header, no job blocks — whatever the count
and jobs fields hold. -/
theorem C4_error_rendering (skills : List String) (count : Option Int)
    (jobs : Option (List JobJson)) (e : String) :
    renderBody skills ⟨some false, count, jobs, some e⟩ =
      Except.ok [errorLine e] ∧
    errorLine e = "❌ Error: " ++ e :=
  ⟨rfl, rfl⟩

/-- C5: a body whose success flag is true and whose jobs array holds N
records renders as the header line and its separator exactly once, followed
by the N job blocks in order; N = 0 leaves just the header and separator. -/
theorem C5_success_rendering (skillsReq : List String) (count : Int)
    (jobs : List JobRecord) (err : Option String) :
    renderBody skillsReq
        ⟨some true, some count, some (List.map JobRecord.toJson jobs), err⟩ =
      Except.ok (headerLine count skillsReq :: sepEq60 ::
        (List.map renderJobRecord jobs).flatten) ∧
    (List.map renderJobRecord jobs).length = jobs.length :=
  ⟨renderBody_success skillsReq count jobs err, by simp⟩

/-- C6: on every failing catalog-fetch outcome — a raised exception, a body
whose success flag is absent or false, or a body missing the skills field —
get_available_skills still returns a value, that value is falsy, and the
guidance path prints the could-not-fetch line in place of a listing. -/
theorem C6_catalog_degrades (o : CatalogOutcome) (h : catalogFailure o) :
    pyTruthyList (get_available_skills o) = false ∧
    guidanceLines (get_available_skills o) =
      [usageLine, availableLine, couldNotFetchLine, exampleLine] := by
  cases o with
  | exn => exact ⟨rfl, rfl⟩
  | ok b =>
    obtain ⟨os, osk⟩ := b
    rcases os with _ | b'
    · exact ⟨rfl, rfl⟩
    · cases b' with
      | false => exact ⟨rfl, rfl⟩
      | true =>
        rcases h with h1 | h2
        · exact absurd rfl h1
        · rcases osk with _ | l
          · exact ⟨rfl, rfl⟩
          · exact absurd h2 (by simp)

/-- Witness for C6 at the raised-exception outcome. -/
theorem C6_catalog_degrades_witness :
    pyTruthyList (get_available_skills CatalogOutcome.exn) = false ∧
    guidanceLines (get_available_skills CatalogOutcome.exn) =
      [usageLine, availableLine, couldNotFetchLine, exampleLine] :=
  C6_catalog_degrades CatalogOutcome.exn True.intro

/-- C7: the guidance listing numbers at most the first twenty catalog entries
from one, the summary line appears exactly when more than twenty entries
exist, a catalog of at most twenty entries is listed in full with no summary
line, and a catalog of twenty-one entries ends in the line
stating one more. -/
theorem C7_catalog_display (skills : List String) (h : skills ≠ []) :
    guidanceLines (some skills) =
      usageLine :: availableLine :: (catalogListing skills ++ [exampleLine]) ∧
    ((List.enumFrom 1 (skills.take 20)).map
      (fun p => numberedLine p.1 p.2)).length = min 20 skills.length ∧
    (skills.length ≤ 20 →
      catalogListing skills =
        (List.enumFrom 1 skills).map (fun p => numberedLine p.1 p.2)) ∧
    (skills.length = 21 →
      catalogListing skills =
        (List.enumFrom 1 (skills.take 20)).map
          (fun p => numberedLine p.1 p.2) ++ ["     ... and 1 more"]) := by
  refine ⟨?_, ?_, fun h20 => ?_, fun h21 => ?_⟩
  · simp [guidanceLines, pyTruthyList, h]
  · simp
  · simp [catalogListing, List.take_of_length_le h20, Nat.not_lt.mpr h20]
  · have hml : moreLine 21 = "     ... and 1 more" := by decide
    simp [catalogListing, h21, hml]

/-- Witness for C7 at a catalog of twenty-one entries. -/
theorem C7_catalog_display_witness :
    catalogListing (List.replicate 21 "x") =
      (List.enumFrom 1 ((List.replicate 21 "x").take 20)).map
        (fun p => numberedLine p.1 p.2) ++ ["     ... and 1 more"] :=
  (C7_catalog_display (List.replicate 21 "x") (by decide)).2.2.2 (by decide)

/-- C8: with no skill argument the process prints the guidance text and
exits with failure status 1; with at least one skill argument and any of the
enumerated search outcomes — connection failure, another request exception, a
well-formed rejection, or a well-formed success — it exits with status 0. -/
theorem C8_exit_status (args : List String) (cat : CatalogOutcome)
    (out : HttpOutcome) :
    pyMain [] cat out =
      Except.ok (1, guidanceLines (get_available_skills cat)) ∧
    (args ≠ [] → benignOutcome out →
      ∃ lines, pyMain args cat out = Except.ok (0, lines)) := by
  constructor
  · rfl
  · intro ha hb
    have hne : args.isEmpty = false := by
      rcases args with _ | ⟨x, xs⟩
      · exact absurd rfl ha
      · rfl
    cases out with
    | connectionError =>
      exact ⟨bannerLine :: sepEq50 :: [couldNotConnectLine, serverHintLine],
        by simp [pyMain, hne, find_jobs_by_skills]⟩
    | requestException m =>
      exact ⟨bannerLine :: sepEq50 :: [requestFailedLine m],
        by simp [pyMain, hne, find_jobs_by_skills]⟩
    | ok b =>
      rcases hb with ⟨e, hs, he⟩ | ⟨c, jobs, hs, hc, hj⟩
      · have hrb : renderBody args b = Except.ok [errorLine e] := by
          obtain ⟨os, oc, oj, oe⟩ := b
          simp only at hs he
          subst hs; subst he
          rfl
        exact ⟨bannerLine :: sepEq50 :: [errorLine e],
          by simp [pyMain, hne, find_jobs_by_skills, hrb]⟩
      · have hrb : renderBody args b =
            Except.ok (headerLine c args :: sepEq60 ::
              (List.map renderJobRecord jobs).flatten) := by
          obtain ⟨os, oc, oj, oe⟩ := b
          simp only at hs hc hj
          subst hs; subst hc; subst hj
          exact renderBody_success args c jobs oe
        exact ⟨bannerLine :: sepEq50 :: headerLine c args :: sepEq60 ::
            (List.map renderJobRecord jobs).flatten,
          by simp [pyMain, hne, find_jobs_by_skills, hrb]⟩

/-- Witness for C8: one skill argument and a refused connection still give
exit status 0. -/
theorem C8_exit_status_witness :
    ∃ lines, pyMain ["Rust"] CatalogOutcome.exn HttpOutcome.connectionError =
      Except.ok (0, lines) :=
  (C8_exit_status ["Rust"] CatalogOutcome.exn
    HttpOutcome.connectionError).2 (by decide) True.intro

/-- C9 counterexample: a transport-level success whose parsed body lacks the
success flag — the empty JSON object — makes find_jobs_by_skills raise an
uncaught KeyError instead of printing a message. -/
theorem C9_uncaught_keyerror :
    find_jobs_by_skills ["Python"] 20 (HttpOutcome.ok ⟨none, none, none, none⟩) =
      Except.error "KeyError: success" := rfl

/-- C9 (amended): every transport-level failure of the search request is
caught and converted to a printed message — the specific could-not-connect
line plus hint for a connection failure, the generic failure line carrying
the error text for any other request exception; a successfully parsed body
missing an expected key, however, raises an uncaught KeyError. -/
theorem C9_transport_failures (skills : List String) (limit : Nat)
    (out : HttpOutcome) :
    (out = HttpOutcome.connectionError →
      find_jobs_by_skills skills limit out =
        Except.ok [couldNotConnectLine, serverHintLine]) ∧
    (∀ m, out = HttpOutcome.requestException m →
      find_jobs_by_skills skills limit out =
        Except.ok [requestFailedLine m]) := by
  constructor
  · rintro rfl; rfl
  · rintro m rfl; rfl

/-- Witness for C9 at a connection failure. -/
theorem C9_transport_failures_witness :
    find_jobs_by_skills ["Rust"] 20 HttpOutcome.connectionError =
      Except.ok [couldNotConnectLine, serverHintLine] :=
  (C9_transport_failures ["Rust"] 20 HttpOutcome.connectionError).1 rfl

/-- C10: a transport-level success whose body carries success false makes
get_available_skills return none — the Python None, not the empty list; the
explicit empty list is what the exception path returns; and the caller's
truth test treats none as falsy, so the guidance path still prints the
could-not-fetch line. -/
theorem C10_success_false_returns_none (b : CatalogBody)
    (h : b.success = some false) :
    get_available_skills (CatalogOutcome.ok b) = none ∧
    get_available_skills (CatalogOutcome.ok b) ≠ some [] ∧
    get_available_skills CatalogOutcome.exn = some [] ∧
    pyTruthyList (get_available_skills (CatalogOutcome.ok b)) = false ∧
    guidanceLines (get_available_skills (CatalogOutcome.ok b)) =
      [usageLine, availableLine, couldNotFetchLine, exampleLine] := by
  have hg : get_available_skills (CatalogOutcome.ok b) = none := by
    obtain ⟨os, osk⟩ := b
    simp only at h
    subst h
    rfl
  exact ⟨hg, by simp [hg], rfl, by rw [hg]; rfl, by rw [hg]; rfl⟩

/-- Witness for C10 at the body with success false and no skills field. -/
theorem C10_success_false_returns_none_witness :
    get_available_skills (CatalogOutcome.ok ⟨some false, none⟩) = none ∧
    get_available_skills (CatalogOutcome.ok ⟨some false, none⟩) ≠ some [] ∧
    get_available_skills CatalogOutcome.exn = some [] ∧
    pyTruthyList (get_available_skills (CatalogOutcome.ok ⟨some false, none⟩)) =
      false ∧
    guidanceLines (get_available_skills (CatalogOutcome.ok ⟨some false, none⟩)) =
      [usageLine, availableLine, couldNotFetchLine, exampleLine] :=
  C10_success_false_returns_none ⟨some false, none⟩ rfl
